import Mathlib

/-!
Verification of the agent orchestration pipeline in
`supabase/functions/whatsapp-webhook/agent_manager.ts`.

The TypeScript source is shallowly embedded as pure Lean functions.
External effects (database reads/writes, LLM calls, message delivery,
current time) are passed in explicitly as parameters and returned as
explicit pieces of the result, so every function here is executable and
deterministic.  JavaScript numbers used as millisecond timestamps are
modelled as `Nat` (timestamps only ever move forward and the code only
compares differences against a positive constant, so truncated `Nat`
subtraction agrees with JS subtraction on every branch taken).
Embedding vectors (JS `number[]`) are modelled as `List ℚ`; the source
only ever compares their entries for exact equality with `0`, so no
floating-point rounding behaviour is involved in any claim.
-/

namespace AgentManager

/-- Breaker states, from `private state: 'CLOSED' | 'OPEN' | 'HALF_OPEN'`
(`agent_manager.ts` line 47).  `OPEN` is spelled `opened` because `open`
is a Lean keyword. -/
inductive BState where
  | closed
  | opened
  | halfOpen
deriving DecidableEq, Repr

/-- The mutable fields of `class CircuitBreaker` (lines 46-48):
`failures`, `lastFailTime`, `state`. -/
structure Breaker where
  failures : Nat
  lastFailTime : Nat
  state : BState
deriving DecidableEq, Repr

/-- `private failureThreshold = 5` (line 48). -/
def failureThreshold : Nat := 5

/-- `private timeout = 60000` (line 48), one minute in milliseconds. -/
def breakerTimeout : Nat := 60000

/-- Field initialisers of `CircuitBreaker` (line 47):
`failures = 0`, `lastFailTime = 0`, `state = 'CLOSED'`. -/
def Breaker.initial : Breaker := ⟨0, 0, .closed⟩

/-- `private onSuccess()` (lines 64-67): reset the failure counter and
close the breaker. -/
def Breaker.onSuccess (b : Breaker) : Breaker :=
  { b with failures := 0, state := .closed }

/-- `private onFailure()` (lines 68-73): increment the failure counter,
record the failure time, and open the breaker once the incremented
counter reaches the threshold (unless already open). -/
def Breaker.onFailure (b : Breaker) (now : Nat) : Breaker :=
  let f := b.failures + 1
  { failures := f
    lastFailTime := now
    state := if b.state ≠ .opened ∧ f ≥ failureThreshold then .opened else b.state }

/-- Result of one `execute` call: the wrapped operation's value, the
configured fallback value, or an exception propagated to the caller
(`throw error`, line 61). -/
inductive CallResult (T : Type) where
  | success (val : T)
  | fallback (val : T)
  | raised
deriving DecidableEq, Repr

/-- One `execute` call together with the instrumentation needed to state
the claims: the returned value, whether the wrapped operation `fn` was
invoked at all, and the breaker state after the call. -/
structure ExecStep (T : Type) where
  result : CallResult T
  invoked : Bool
  breaker : Breaker
deriving DecidableEq, Repr

/-- `async execute<T>(fn, fallback, service)` (lines 50-63).  The outcome
of the wrapped operation is supplied as data: `fnSucceeds` tells whether
`await fn()` returns normally, and `fnResult` is its value when it does. -/
def Breaker.execute {T : Type} (b : Breaker) (now : Nat) (fnSucceeds : Bool)
    (fnResult fallback : T) : ExecStep T :=
  -- lines 51-54: an OPEN breaker inside the cooldown short-circuits to the
  -- fallback; after the cooldown it transitions to HALF_OPEN and proceeds.
  if b.state = .opened ∧ ¬ (now - b.lastFailTime > breakerTimeout) then
    { result := .fallback fallback, invoked := false, breaker := b }
  else
    let b1 := if b.state = .opened then { b with state := .halfOpen } else b
    if fnSucceeds then
      -- line 57: `const result = await fn(); this.onSuccess(); return result;`
      { result := .success fnResult, invoked := true, breaker := b1.onSuccess }
    else
      -- lines 58-61: `this.onFailure()`, then return the fallback when the
      -- breaker is OPEN or HALF_OPEN afterwards, otherwise rethrow.
      let b2 := b1.onFailure now
      if b2.state = .opened ∨ b2.state = .halfOpen then
        { result := .fallback fallback, invoked := true, breaker := b2 }
      else
        { result := .raised, invoked := true, breaker := b2 }

/-- Run a sequence of calls whose wrapped operation fails every time, one
at each listed timestamp, and return the final breaker state. -/
def Breaker.afterFailures (b : Breaker) : List Nat → Breaker
  | [] => b
  | t :: ts => Breaker.afterFailures (b.execute t false () ()).breaker ts

/-- The module-level breaker instance, `const geminiBreaker = new
CircuitBreaker()` (line 75).  This is the ONLY breaker instance in the
module: the embedding call site (line 216), the classification call site
(line 266) and the generation call site (line 291) all read and mutate
this one object.  Its state is threaded explicitly through the functions
below. -/
def geminiBreaker : Breaker := Breaker.initial

/-- `const FALLBACK_EMBEDDING = Array(768).fill(0)` (line 78).  Vector
entries are modelled as rationals; the source only compares them with
`0` for exact equality. -/
def FALLBACK_EMBEDDING : List ℚ := List.replicate 768 0

/-- The check at line 220 guarding the cache write:
`embedding.length === FALLBACK_EMBEDDING.length && embedding.every((val, i)
=> val === FALLBACK_EMBEDDING[i])` — length equality plus element-wise
comparison against the sentinel. -/
def isFallbackEmbedding (v : List ℚ) : Bool :=
  decide (v.length = FALLBACK_EMBEDDING.length) &&
    (List.zip v FALLBACK_EMBEDDING).all fun p => decide (p.1 = p.2)

/-- The check at line 239 guarding retrieval:
`queryEmbedding.length === FALLBACK_EMBEDDING.length &&
queryEmbedding.every(v => v === 0)` — length equality plus all entries
exactly zero. -/
def isFallbackAllZero (v : List ℚ) : Bool :=
  decide (v.length = FALLBACK_EMBEDDING.length) && v.all fun x => decide (x = 0)

/-- Result record of the classification capability,
`{ specialty: string, usage: number }` (line 255). -/
structure Classification where
  specialty : String
  usage : Nat
deriving DecidableEq, Repr

/-- `const FALLBACK_CLASSIFICATION = { specialty: 'Sin Clasificar', usage: 0 }`
(line 79). -/
def FALLBACK_CLASSIFICATION : Classification := ⟨"Sin Clasificar", 0⟩

/-- `const FALLBACK_AUGMENTATION_TEXT = ...` (line 80), copied verbatim. -/
def FALLBACK_AUGMENTATION_TEXT : String :=
  "🤖 [Sistema Degradado] Lo siento, el servicio de IA está experimentando fallas críticas. Hemos iniciado el **Handoff de emergencia** a un abogado humano."

/-- Result record of the generation capability,
`{ responseText: string, usage: number }` (line 272). -/
structure AugResult where
  responseText : String
  usage : Nat
deriving DecidableEq, Repr

/-- `const FALLBACK_AUGMENTATION = { responseText: FALLBACK_AUGMENTATION_TEXT,
usage: 0 }` (line 81). -/
def FALLBACK_AUGMENTATION : AugResult := ⟨FALLBACK_AUGMENTATION_TEXT, 0⟩

/-- JavaScript `String.prototype.trim`: drop whitespace from both ends.
Implemented over the character list so that it is kernel-reducible (the
core `String.trim` is not); on the inputs of this development the two
agree. -/
def jsTrim (s : String) : String :=
  String.mk
    (((s.data.dropWhile Char.isWhitespace).reverse.dropWhile
      Char.isWhitespace).reverse)

/-- JavaScript `String.prototype.toLowerCase`, character by character
(adequate for the ASCII label and key material this code lower-cases). -/
def jsToLower (s : String) : String := String.mk (s.data.map Char.toLower)

/-- `createMD5Hash` (lines 88-93) digests `text.toLowerCase().trim()`.
The MD5 digest itself is a cryptographic primitive outside the scope of
this embedding; it is modelled as the normalised text itself, which
preserves exactly the property the source relies on — the key is a
deterministic function of the normalised query (hash collisions are out
of scope). -/
def createMD5Hash (text : String) : String := jsTrim (jsToLower text)

/-- One row of the `embedding_cache` table: an embedding vector plus a
hit counter (the `query_hash` key is the association-list key). -/
structure CacheEntry where
  embedding : List ℚ
  hit_count : Nat
deriving DecidableEq, Repr

/-- The `embedding_cache` table, keyed by `query_hash`. -/
abbrev Cache := List (String × CacheEntry)

/-- `select('embedding').eq('query_hash', h).maybeSingle()` (line 206). -/
def lookupCache (c : Cache) (k : String) : Option CacheEntry :=
  (c.find? fun p => p.1 == k).map (·.2)

/-- `update({ hit_count: n }).eq('query_hash', k)` (line 209). -/
def updateHitCount (c : Cache) (k : String) (n : Nat) : Cache :=
  c.map fun p => if p.1 == k then (p.1, { p.2 with hit_count := n }) else p

/-- `insert({ query_hash: k, embedding: v })` (line 223).  The insert
does not set `hit_count`; the column takes the table default, modelled
as 0. -/
def insertCache (c : Cache) (k : String) (v : List ℚ) : Cache :=
  (k, ⟨v, 0⟩) :: c

/-- The hit-count value written on a cache hit (line 209).  The row was
fetched with `.select('embedding')` only, so it carries no `hit_count`
field: `cached.hit_count` is `undefined`, and
`(cached.hit_count || 0) + 1` always evaluates to `0 + 1 = 1`, whatever
count the table currently stores.  The absent field is the `none`
argument below. -/
def hitUpdateValue (selectedHitCount : Option Nat) : Nat :=
  selectedHitCount.getD 0 + 1

/-- One `generateQueryEmbedding` call with its instrumentation: the
returned vector (or a propagated exception, `Except.error`), the cache
and breaker afterwards, and whether the embedding operation
(`uncachedFn`) was invoked. -/
structure EmbedOutcome where
  result : Except Unit (List ℚ)
  cache : Cache
  breaker : Breaker
  invoked : Bool
deriving Repr

/-- `generateQueryEmbedding` (lines 203-226).  External behaviour is
supplied as data: `fnSucceeds`/`fnVec` describe the Gemini embedding
call, and `hitUpdateOk`/`persistOk` tell whether the two fire-and-forget
best-effort cache writes reach the table (the source does not await
them; their failure is only logged). -/
def generateQueryEmbedding (cache : Cache) (b : Breaker) (now : Nat)
    (query : String) (fnSucceeds : Bool) (fnVec : List ℚ)
    (hitUpdateOk persistOk : Bool) : EmbedOutcome :=
  let queryHash := createMD5Hash query
  match lookupCache cache queryHash with
  | some cached =>
      -- lines 207-211: cache hit; best-effort hit-count write, then return
      -- the cached vector.
      let newCache :=
        if hitUpdateOk then updateHitCount cache queryHash (hitUpdateValue none)
        else cache
      { result := .ok cached.embedding, cache := newCache, breaker := b,
        invoked := false }
  | none =>
      -- lines 214-216: cache miss; call the embedding model through the
      -- shared breaker.
      let step := b.execute now fnSucceeds fnVec FALLBACK_EMBEDDING
      match step.result with
      | .raised =>
          { result := .error (), cache := cache, breaker := step.breaker,
            invoked := step.invoked }
      | .success v | .fallback v =>
          -- lines 219-224: persist best-effort, but never the sentinel.
          let newCache :=
            if ¬ isFallbackEmbedding v ∧ persistOk then insertCache cache queryHash v
            else cache
          { result := .ok v, cache := newCache, breaker := step.breaker,
            invoked := step.invoked }

/-- `const RATE_LIMIT_COUNT = 10` (line 161). -/
def RATE_LIMIT_COUNT : Nat := 10

/-- `const RATE_LIMIT_WINDOW_MS = 60 * 1000` (line 162). -/
def RATE_LIMIT_WINDOW_MS : Nat := 60 * 1000

/-- One row of the `user_rate_limits` table for a fixed user. -/
structure RateRow where
  request_count : Nat
  window_start : Nat
deriving DecidableEq, Repr

/-- `checkRateLimit` (lines 166-195) for one user.  `readFails` models a
store read error with a code other than PGRST116 (line 173: fail open,
no mutation).  `row` is the user's current row (`none` when absent) and
the returned pair is (allowed, row afterwards).  The insert at line 178
writes only `user_id` and `request_count: 1`; the `window_start` column
takes the table default.  The schema is not part of the sources, so the
default is modelled from the spec as the insertion time (a fresh window
starting now). -/
def checkRateLimit (readFails : Bool) (row : Option RateRow) (now : Nat) :
    Bool × Option RateRow :=
  if readFails then (true, row)
  else
    match row with
    | none => (true, some ⟨1, now⟩)
    | some data =>
        if now - data.window_start > RATE_LIMIT_WINDOW_MS then
          -- lines 183-186: window elapsed; reset to 1 with a fresh start.
          (true, some ⟨1, now⟩)
        else if data.request_count ≥ RATE_LIMIT_COUNT then
          -- line 188: deny without mutation.
          (false, some data)
        else
          -- line 191: increment and allow.
          (true, some ⟨data.request_count + 1, data.window_start⟩)

/-- Run `checkRateLimit` (with a healthy store read) once per timestamp
in the list, threading the row through, and collect the verdicts. -/
def runRequests (row : Option RateRow) : List Nat → List Bool × Option RateRow
  | [] => ([], row)
  | t :: ts =>
      let step := checkRateLimit false row t
      let rest := runRequests step.2 ts
      (step.1 :: rest.1, rest.2)

/-- `const THRESHOLD_MAP` (lines 27-31), with its values as exact
rationals. -/
def THRESHOLD_MAP (s : String) : Option ℚ :=
  if s = "Derecho Penal" then some (80 / 100)
  else if s = "Derecho Civil" then some (70 / 100)
  else if s = "Derecho Laboral" then some (75 / 100)
  else none

/-- `const DEFAULT_THRESHOLD = 0.65` (line 32). -/
def DEFAULT_THRESHOLD : ℚ := 65 / 100

/-- One scored row returned by the `match_legal_documents` RPC; the
router reads its `content_chunk` and `id` fields. -/
structure Fragment where
  id : Nat
  content_chunk : String
deriving DecidableEq, Repr

/-- Line 233: `specialty && specialty !== 'Sin Clasificar' ? specialty :
'Sin Clasificar'`.  A `none` (undefined) or empty string is falsy. -/
def determineSpecialty (specialty : Option String) : String :=
  match specialty with
  | some s => if s ≠ "" ∧ s ≠ "Sin Clasificar" then s else "Sin Clasificar"
  | none => "Sin Clasificar"

/-- The body of `retrieveRAGContext` after the query embedding has been
obtained (lines 233-251).  The RPC's behaviour is supplied as data:
`rpcError` models a query-layer error (line 250: logged, treated as zero
results) and `rpcData` what the vector search would return.  `searched`
records whether the RPC was called at all. -/
structure RetrieveOutcome where
  fragments : List Fragment
  searched : Bool
  threshold : ℚ
deriving DecidableEq, Repr

/-- Lines 233-251 of `retrieveRAGContext`: threshold resolution, the
fallback-sentinel guard, and the vector search. -/
def retrieveWithEmbedding (queryEmbedding : List ℚ) (specialty : Option String)
    (rpcError : Bool) (rpcData : List Fragment) : RetrieveOutcome :=
  let determinedSpecialty := determineSpecialty specialty
  -- line 234: `THRESHOLD_MAP[determinedSpecialty] || DEFAULT_THRESHOLD`
  -- (every THRESHOLD_MAP value is non-zero, hence truthy).
  let matchThreshold := (THRESHOLD_MAP determinedSpecialty).getD DEFAULT_THRESHOLD
  if isFallbackAllZero queryEmbedding then
    -- lines 241-244: never run a vector search on the sentinel.
    { fragments := [], searched := false, threshold := matchThreshold }
  else if rpcError then
    { fragments := [], searched := true, threshold := matchThreshold }
  else
    { fragments := rpcData, searched := true, threshold := matchThreshold }

/-- The classification label table `specialtyMap` (line 260). -/
def specialtyMap (s : String) : Option String :=
  if s = "derecho penal" then some "Derecho Penal"
  else if s = "derecho civil" then some "Derecho Civil"
  else if s = "derecho laboral" then some "Derecho Laboral"
  else if s = "sin clasificar" then some "Sin Clasificar"
  else none

/-- Line 261: `response.text.trim().toLowerCase().replace(/[.,]/g, '')`. -/
def normalizeLabel (s : String) : String :=
  String.mk ((jsToLower (jsTrim s)).data.filter fun c => ¬ (c = '.' ∨ c = ','))

/-- The body of the classification operation `fn` (lines 257-264) once
the model has answered: normalise the response text and map it into the
closed label set, defaulting to `Sin Clasificar`. -/
def classifyFn (responseText : String) (usage : Nat) : Classification :=
  match specialtyMap (normalizeLabel responseText) with
  | some l => ⟨l, usage⟩
  | none => ⟨"Sin Clasificar", usage⟩

/-- `classifyLegalSpecialty` (lines 255-267).  The surrounding
`try { return await geminiBreaker.execute(...) } catch (e) { throw e; }`
rethrows, so a `raised` breaker result propagates unchanged to the
caller.  `fnSucceeds`/`responseText`/`usage` describe the Gemini call's
behaviour. -/
def classifyLegalSpecialty (b : Breaker) (now : Nat) (fnSucceeds : Bool)
    (responseText : String) (usage : Nat) : ExecStep Classification :=
  b.execute now fnSucceeds (classifyFn responseText usage) FALLBACK_CLASSIFICATION

/-- `const CHUNK_SIZE = 150` (line 278). -/
def CHUNK_SIZE : Nat := 150

/-- The buffering loop of the generation stream (lines 280-283): append
each incoming chunk to the buffer and flush the buffer whenever its
length reaches `CHUNK_SIZE`.  Returns the flushed messages, in order,
together with the buffer remaining when the chunk list is exhausted.
String lengths are code-point counts; JS counts UTF-16 units, which
agrees on every string these claims evaluate (the only surrogate-pair
character in play is the robot emoji of the fallback text, whose length
is 152 here and 153 in JS — both at least `CHUNK_SIZE`, so the same
branch is taken). -/
def streamLoop : List String → String → List String × String
  | [], buffer => ([], buffer)
  | c :: cs, buffer =>
      let b := buffer ++ c
      if b.length ≥ CHUNK_SIZE then
        let rest := streamLoop cs ""
        (b :: rest.1, rest.2)
      else
        streamLoop cs b

/-- The messages sent from inside the generation operation `fn` (lines
276-288).  When the stream ends normally the remaining buffer is flushed
(line 284); when the stream throws, the buffered remainder is lost and
only the flushes already made were sent. -/
def fnMessages (chunks : List String) (streamOk : Bool) : List String :=
  let r := streamLoop chunks ""
  if streamOk ∧ r.2.length > 0 then r.1 ++ [r.2] else r.1

/-- One `generateAugmentedResponse` call: the messages sent to the user
(in order), the returned result record, whether the breaker forced the
fallback value (returned it in place of the operation's own result), and
the breaker afterwards. -/
structure AugOutcome where
  messages : List String
  result : AugResult
  forcedFallback : Bool
  breaker : Breaker
deriving DecidableEq, Repr

/-- `generateAugmentedResponse` (lines 272-305).  The generation
stream's behaviour is supplied as data: `chunks` are the text chunks it
yields (in order), `streamOk` tells whether it completes without
throwing, and `streamUsage` is its reported token usage.  The full text
accumulated by the loop is the concatenation of the chunks.  After
`geminiBreaker.execute`, the source sends the fallback text once more
when the returned `responseText` equals it (lines 294-296); when
`execute` rethrows, the catch block (lines 299-304) sends the fallback
text and returns `FALLBACK_AUGMENTATION`. -/
def generateAugmentedResponse (b : Breaker) (now : Nat) (chunks : List String)
    (streamOk : Bool) (streamUsage : Nat) : AugOutcome :=
  let fullText := String.join chunks
  let step := b.execute now streamOk ⟨fullText, streamUsage⟩ FALLBACK_AUGMENTATION
  let streamed := if step.invoked then fnMessages chunks streamOk else []
  match step.result with
  | .raised =>
      { messages := streamed ++ [FALLBACK_AUGMENTATION_TEXT],
        result := FALLBACK_AUGMENTATION, forcedFallback := false,
        breaker := step.breaker }
  | .success r =>
      if r.responseText = FALLBACK_AUGMENTATION_TEXT then
        { messages := streamed ++ [FALLBACK_AUGMENTATION_TEXT], result := r,
          forcedFallback := false, breaker := step.breaker }
      else
        { messages := streamed, result := r, forcedFallback := false,
          breaker := step.breaker }
  | .fallback r =>
      if r.responseText = FALLBACK_AUGMENTATION_TEXT then
        { messages := streamed ++ [FALLBACK_AUGMENTATION_TEXT], result := r,
          forcedFallback := true, breaker := step.breaker }
      else
        { messages := streamed, result := r, forcedFallback := true,
          breaker := step.breaker }

/-- `const MAX_INPUT_LENGTH = 2000` (line 311). -/
def MAX_INPUT_LENGTH : Nat := 2000

/-- `const MIN_INPUT_LENGTH = 5` (line 312). -/
def MIN_INPUT_LENGTH : Nat := 5

/-- `validateInput` (lines 315-321).  Fails with the thrown error's
message string; on success returns the trimmed message with the control
characters of `[\x00-\x1F\x7F]` removed. -/
def validateInput (message : String) : Except String String :=
  let trimmedMessage := jsTrim message
  if trimmedMessage.length < MIN_INPUT_LENGTH then
    .error "Validation Error: Message too short."
  else if trimmedMessage.length > MAX_INPUT_LENGTH then
    .error "Validation Error: Message exceeds 2000 characters."
  else
    .ok (String.mk (trimmedMessage.data.filter fun c =>
      ¬ (c.toNat ≤ 0x1F ∨ c.toNat = 0x7F)))

/-- JavaScript `String.prototype.includes`: some contiguous run of `s`
equals `pat`. -/
def strIncludes (s pat : String) : Bool :=
  s.data.tails.any fun t => pat.data.isPrefixOf t

/-- The throttling notice of line 356. -/
def RATE_LIMIT_NOTICE : String :=
  "⚠️ Has excedido el límite de " ++ toString RATE_LIMIT_COUNT ++
    " consultas por minuto. Espera un momento y vuelve a intentarlo."

/-- The over-length notice built at line 366. -/
def TOO_LONG_NOTICE : String :=
  "⚠️ Lo siento, tu mensaje excede el límite de " ++ toString MAX_INPUT_LENGTH ++
    " caracteres. Por favor, envíalo en partes más cortas."

/-- The under-length / invalid-characters notice of line 367. -/
def TOO_SHORT_NOTICE : String :=
  "⚠️ Lo siento, tu mensaje es demasiado corto o contiene caracteres inválidos. Por favor, reformula tu consulta."

/-- Lines 365-367: the notice chosen for a validation error message,
`e.message.includes('too long') ? <over-length notice> : <under-length
notice>`. -/
def validationNotice (errMessage : String) : String :=
  if strIncludes errMessage "too long" then TOO_LONG_NOTICE else TOO_SHORT_NOTICE

/-- The handoff notice composed at line 401. -/
def handoffNotice (determinedSpecialty : String) : String :=
  "🤖 LangGraph: No encontré información específica en la especialidad \"" ++
    determinedSpecialty ++
    "\". Hemos iniciado el **traspaso a un Abogado Humano** (Handoff)."

/-- Externally visible actions of one `runAgentRouter` pass, in
execution order. -/
inductive Effect where
  | rateLimitRead
  | sendMessage (recipient msg : String)
  | classifyCall
  | embedCall
  | vectorSearch
  | checkpointWrite (userId text : String) (isHandoff : Bool)
  | handoffTrigger (userId whatsappId text specialty : String)
  | auditInsert (userId prompt response model : String) (tokens : Nat)
      (path : List String) (fragIds : List Nat)
deriving DecidableEq, Repr

/-- Everything `runAgentRouter` observes from outside during one pass:
the resolved user id, the state of the stores and the shared breaker,
the clock, and the behaviour of every external call it may make. -/
structure RouterEnv where
  userId : Option String
  rateReadFails : Bool
  rateRow : Option RateRow
  cache : Cache
  breaker : Breaker
  now : Nat
  classifyOk : Bool
  classifyText : String
  classifyUsage : Nat
  embedOk : Bool
  embedVec : List ℚ
  hitUpdateOk : Bool
  persistOk : Bool
  rpcError : Bool
  rpcData : List Fragment
  streamChunks : List String
  streamOk : Bool
  streamUsage : Nat
deriving Repr

/-- Result of one `runAgentRouter` pass: the effect trace, and whether
an exception escaped the function (the source has no try/catch around
classification or retrieval, so their errors propagate to the webhook
layer). -/
structure RouterOutcome where
  effects : List Effect
  raised : Bool
deriving DecidableEq, Repr

/-- `runAgentRouter` (lines 343-423).  The guard at lines 349-351
(`if (!user_id) return`) drops the request before anything else runs; a
resolved-but-empty id string is falsy in JS and is treated the same way.
LLM call effects (`classifyCall`, `embedCall`) are recorded only when
the breaker actually invoked the operation, and `vectorSearch` only when
the RPC was reached. -/
def runAgentRouter (env : RouterEnv) (message_text whatsapp_id : String) :
    RouterOutcome :=
  match env.userId with
  | none => { effects := [], raised := false }
  | some user_id =>
      if user_id = "" then { effects := [], raised := false }
      else
        -- 0. rate limiting (lines 354-358)
        let rl := checkRateLimit env.rateReadFails env.rateRow env.now
        if ¬ rl.1 then
          { effects := [.rateLimitRead, .sendMessage whatsapp_id RATE_LIMIT_NOTICE],
            raised := false }
        else
          -- 1. input validation (lines 361-371)
          match validateInput message_text with
          | .error e =>
              { effects := [.rateLimitRead,
                  .sendMessage whatsapp_id (validationNotice e)],
                raised := false }
          | .ok sanitized_message =>
              -- 2. classification (lines 376-377)
              let cls := classifyLegalSpecialty env.breaker env.now env.classifyOk
                env.classifyText env.classifyUsage
              let clsEffects := if cls.invoked then [Effect.classifyCall] else []
              match cls.result with
              | .raised =>
                  { effects := .rateLimitRead :: clsEffects, raised := true }
              | .success c | .fallback c =>
                  -- 3. hybrid retrieval (line 382): the embedding first ...
                  let emb := generateQueryEmbedding env.cache cls.breaker env.now
                    sanitized_message env.embedOk env.embedVec env.hitUpdateOk
                    env.persistOk
                  let embEffects := if emb.invoked then [Effect.embedCall] else []
                  match emb.result with
                  | .error _ =>
                      { effects := .rateLimitRead :: clsEffects ++ embEffects,
                        raised := true }
                  | .ok vec =>
                      -- ... then the guarded vector search (lines 233-251)
                      let ret := retrieveWithEmbedding vec (some c.specialty)
                        env.rpcError env.rpcData
                      let retEffects :=
                        if ret.searched then [Effect.vectorSearch] else []
                      let pre := .rateLimitRead :: clsEffects ++ embEffects ++
                        retEffects
                      if ret.fragments.length > 0 then
                        -- lines 385-396: augmentation and streaming
                        let aug := generateAugmentedResponse emb.breaker env.now
                          env.streamChunks env.streamOk env.streamUsage
                        let aiResponseText := aug.result.responseText
                        let handoffFlag :=
                          aiResponseText = FALLBACK_AUGMENTATION_TEXT
                        let path := if handoffFlag then
                            ["Router:" ++ c.specialty, "Handoff_Initiated"]
                          else
                            ["Router:" ++ c.specialty, "RAG_Executed", "Augmentation"]
                        { effects := pre ++
                            aug.messages.map (Effect.sendMessage whatsapp_id) ++
                            [.auditInsert user_id sanitized_message aiResponseText
                              "Gemini (Streamed)" (c.usage + aug.result.usage) path
                              (ret.fragments.map Fragment.id)],
                          raised := false }
                      else
                        -- lines 398-405: handoff initiation
                        let aiResponseText := handoffNotice c.specialty
                        { effects := pre ++
                            [.checkpointWrite user_id sanitized_message true,
                             .handoffTrigger user_id whatsapp_id sanitized_message
                               c.specialty,
                             .auditInsert user_id sanitized_message aiResponseText
                               "Handoff Triggered" c.usage
                               ["Router:" ++ c.specialty, "Handoff_Initiated"]
                               []],
                          raised := false }

end AgentManager

namespace AgentManager

/-- Helper: from a fresh breaker, five consecutive failed calls (at any
timestamps) leave the breaker Open with 5 recorded failures and the last
failure's timestamp. -/
theorem breaker_afterFailures_initial (t1 t2 t3 t4 t5 : Nat) :
    Breaker.afterFailures Breaker.initial [t1, t2, t3, t4, t5] = ⟨5, t5, .opened⟩ := by
  simp [Breaker.afterFailures, Breaker.execute, Breaker.onFailure, Breaker.initial,
    failureThreshold, breakerTimeout]

/-- Claim C1 (confirmed): for every capability call wrapped by a
CircuitBreaker, after 5 consecutive failures the breaker is Open; every
call made within the 60-second cooldown since the last failure returns
the configured fallback without invoking the operation and leaves the
breaker unchanged; once the cooldown has elapsed the next call attempts
the operation (the single HalfOpen trial); if that trial succeeds the
failure counter resets to 0 and the state returns to Closed, and if it
fails the breaker re-opens with a refreshed failure timestamp so that no
second trial runs inside the new cooldown. -/
theorem circuitBreaker_lifecycle {T : Type} (t1 t2 t3 t4 t5 now trial : Nat)
    (fnSucceeds : Bool) (fnResult fallback : T) (b : Breaker)
    (hb : b = Breaker.afterFailures Breaker.initial [t1, t2, t3, t4, t5]) :
    b.state = .opened ∧ b.failures = 5 ∧ b.lastFailTime = t5
    ∧ (now - t5 ≤ breakerTimeout →
        b.execute now fnSucceeds fnResult fallback =
          { result := .fallback fallback, invoked := false, breaker := b })
    ∧ (now - t5 > breakerTimeout →
        (b.execute now fnSucceeds fnResult fallback).invoked = true)
    ∧ (now - t5 > breakerTimeout →
        b.execute now true fnResult fallback =
          { result := .success fnResult, invoked := true, breaker := ⟨0, t5, .closed⟩ })
    ∧ (now - t5 > breakerTimeout → trial - now ≤ breakerTimeout →
        (b.execute now false fnResult fallback).breaker = ⟨6, now, .opened⟩
        ∧ ((b.execute now false fnResult fallback).breaker.execute trial fnSucceeds
            fnResult fallback).invoked = false) := by
  have hb5 : b = ⟨5, t5, .opened⟩ := by
    rw [hb, breaker_afterFailures_initial]
  subst hb5
  refine ⟨rfl, rfl, rfl, ?_, ?_, ?_, ?_⟩
  · intro h
    have hng : ¬ (now - t5 > breakerTimeout) := by omega
    simp [Breaker.execute, hng]
  · intro h
    cases fnSucceeds <;>
      simp [Breaker.execute, h, Breaker.onFailure, Breaker.onSuccess, failureThreshold]
  · intro h
    simp [Breaker.execute, h, Breaker.onSuccess]
  · intro h h2
    have hng2 : ¬ (trial - now > breakerTimeout) := by omega
    constructor
    · simp [Breaker.execute, h, Breaker.onFailure, failureThreshold]
    · simp [Breaker.execute, h, Breaker.onFailure, failureThreshold, hng2]

/-- Witness for C1 at concrete inputs: failures at times 1,2,3,4,10; a
call at time 100 (inside the cooldown) is short-circuited, a successful
call at time 70011 (cooldown elapsed) closes the breaker and resets the
counter. -/
theorem circuitBreaker_lifecycle_witness :
    Breaker.execute (⟨5, 10, .opened⟩ : Breaker) 100 true (7 : Nat) 9 =
      { result := .fallback 9, invoked := false, breaker := ⟨5, 10, .opened⟩ } ∧
    Breaker.execute (⟨5, 10, .opened⟩ : Breaker) 70011 true (7 : Nat) 9 =
      { result := .success 7, invoked := true, breaker := ⟨0, 10, .closed⟩ } := by
  have h1 := circuitBreaker_lifecycle (T := Nat) 1 2 3 4 10 100 0 true 7 9
    ⟨5, 10, .opened⟩ (by decide)
  have h2 := circuitBreaker_lifecycle (T := Nat) 1 2 3 4 10 70011 0 true 7 9
    ⟨5, 10, .opened⟩ (by decide)
  exact ⟨h1.2.2.2.1 (by decide), h2.2.2.2.2.2.1 (by decide)⟩

/-- Helper: while inside the window and below the limit, each request is
allowed and increments the counter, keeping the window start. -/
theorem runRequests_within (t u : Nat) (hu : u - t ≤ RATE_LIMIT_WINDOW_MS) :
    ∀ (k c : Nat), 1 ≤ c → c + k ≤ RATE_LIMIT_COUNT →
      runRequests (some ⟨c, t⟩) (List.replicate k u) =
        (List.replicate k true, some ⟨c + k, t⟩) := by
  intro k
  induction k with
  | zero => intro c _ _; simp [runRequests]
  | succ k ih =>
      intro c hc hck
      have h1 : ¬ (u - t > RATE_LIMIT_WINDOW_MS) := by omega
      have h2 : ¬ (c ≥ RATE_LIMIT_COUNT) := by
        simp only [RATE_LIMIT_COUNT] at hck ⊢
        omega
      rw [List.replicate_succ]
      simp only [runRequests, checkRateLimit, if_neg h1, if_neg h2, Bool.false_eq_true,
        reduceIte]
      rw [ih (c + 1) (by omega) (by omega)]
      rw [show c + 1 + k = c + (k + 1) from by omega, List.replicate_succ]

/-- Claim C3 (confirmed): for a user with no prior window, requests 1-10
within one 60-second window are all allowed (the counter reaching 10 with
the window start of the first request); the 11th request inside the same
window is denied and mutates nothing; and the first request after the
window has elapsed is allowed with the counter reset to 1.  The
`window_start` default taken by the first insert is modelled from the
spec as the insertion time, since the table schema is not in the
sources. -/
theorem rateLimit_window (t u v : Nat)
    (hu : u - t ≤ RATE_LIMIT_WINDOW_MS) (hv : v - t > RATE_LIMIT_WINDOW_MS) :
    runRequests none (t :: List.replicate 9 u) =
      (List.replicate 10 true, some ⟨10, t⟩)
    ∧ checkRateLimit false (some ⟨10, t⟩) u = (false, some ⟨10, t⟩)
    ∧ checkRateLimit false (some ⟨10, t⟩) v = (true, some ⟨1, v⟩) := by
  have h1 : ¬ (u - t > RATE_LIMIT_WINDOW_MS) := by omega
  refine ⟨?_, ?_, ?_⟩
  · have e1 : runRequests none (t :: List.replicate 9 u)
        = (true :: (runRequests (some ⟨1, t⟩) (List.replicate 9 u)).1,
           (runRequests (some ⟨1, t⟩) (List.replicate 9 u)).2) := rfl
    rw [e1, runRequests_within t u hu 9 1 (by omega) (by decide)]
    rfl
  · simp [checkRateLimit, h1, RATE_LIMIT_COUNT]
  · simp [checkRateLimit, hv]

/-- Witness for C3 at concrete times 0, 1 and 60001. -/
theorem rateLimit_window_witness :
    runRequests none (0 :: List.replicate 9 1) =
      (List.replicate 10 true, some ⟨10, 0⟩)
    ∧ checkRateLimit false (some ⟨10, 0⟩) 1 = (false, some ⟨10, 0⟩)
    ∧ checkRateLimit false (some ⟨10, 0⟩) 60001 = (true, some ⟨1, 60001⟩) :=
  rateLimit_window 0 1 60001 (by decide) (by decide)

/-- Helper: an Open breaker inside the cooldown returns the fallback
without invoking the operation and without changing state. -/
theorem Breaker.execute_open_shortCircuit {T : Type} {b : Breaker} {now : Nat}
    {s : Bool} {r fb : T} (h1 : b.state = .opened)
    (h2 : now - b.lastFailTime ≤ breakerTimeout) :
    b.execute now s r fb = { result := .fallback fb, invoked := false, breaker := b } := by
  have hng : ¬ (now - b.lastFailTime > breakerTimeout) := by omega
  simp [Breaker.execute, h1, hng]

/-- Helper: a success result of `execute` carries the operation's own
value. -/
theorem Breaker.execute_success_val {T : Type} {b : Breaker} {now : Nat}
    {s : Bool} {r fb v : T} (h : (b.execute now s r fb).result = .success v) :
    v = r := by
  unfold Breaker.execute at h
  dsimp only at h
  split_ifs at h <;> simp_all

/-- Helper: a fallback result of `execute` carries exactly the configured
fallback value. -/
theorem Breaker.execute_fallback_val {T : Type} {b : Breaker} {now : Nat}
    {s : Bool} {r fb v : T} (h : (b.execute now s r fb).result = .fallback v) :
    v = fb := by
  unfold Breaker.execute at h
  dsimp only at h
  split_ifs at h <;> simp_all

/-- Helper: `execute` rethrows only when the operation failed and the
breaker ends up Closed (below the threshold). -/
theorem Breaker.execute_raised_closed {T : Type} {b : Breaker} {now : Nat}
    {s : Bool} {r fb : T} (h : (b.execute now s r fb).result = .raised) :
    s = false ∧ (b.execute now s r fb).breaker.state = .closed := by
  have hcases : ∀ st : BState, st ≠ .opened → st ≠ .halfOpen → st = .closed := by
    intro st h1 h2
    cases st
    · rfl
    · exact absurd rfl h1
    · exact absurd rfl h2
  unfold Breaker.execute at h ⊢
  dsimp only at h ⊢
  split_ifs at h ⊢ <;> simp_all

/-- Claim C4 (confirmed): whenever the query embedding obtained for
retrieval is element-wise equal to the fallback sentinel vector,
retrieval returns the empty list and the vector search is never
performed, for every specialty and every store content or query-layer
error. -/
theorem retrieve_fallback_guard (emb : List ℚ) (specialty : Option String)
    (rpcError : Bool) (rpcData : List Fragment)
    (h : emb = FALLBACK_EMBEDDING) :
    (retrieveWithEmbedding emb specialty rpcError rpcData).fragments = []
    ∧ (retrieveWithEmbedding emb specialty rpcError rpcData).searched = false := by
  subst h
  have hall : ∀ n : Nat,
      (List.replicate n (0 : ℚ)).all (fun x => decide (x = 0)) = true := by
    intro n
    induction n with
    | zero => rfl
    | succ k ih => simp [List.replicate_succ, ih]
  have hz : isFallbackAllZero FALLBACK_EMBEDDING = true := by
    simp only [isFallbackAllZero, FALLBACK_EMBEDDING, hall, Bool.and_true,
      decide_eq_true_eq]
  simp [retrieveWithEmbedding, hz]

/-- Witness for C4: the sentinel embedding against a non-empty store. -/
theorem retrieve_fallback_guard_witness :
    (retrieveWithEmbedding FALLBACK_EMBEDDING (some "Derecho Civil") false
        [⟨1, "fragmento"⟩]).fragments = []
    ∧ (retrieveWithEmbedding FALLBACK_EMBEDDING (some "Derecho Civil") false
        [⟨1, "fragmento"⟩]).searched = false :=
  retrieve_fallback_guard _ _ _ _ rfl

/-- Helper: the classification operation's own result always carries a
label from the closed enumeration. -/
theorem classifyFn_specialty_mem (t : String) (u : Nat) :
    (classifyFn t u).specialty ∈
      (["Derecho Penal", "Derecho Civil", "Derecho Laboral", "Sin Clasificar"] :
        List String) := by
  rcases hmap : specialtyMap (normalizeLabel t) with _ | l
  · simp [classifyFn, hmap]
  · have hl : (classifyFn t u).specialty = l := by simp [classifyFn, hmap]
    rw [hl]
    unfold specialtyMap at hmap
    split_ifs at hmap <;>
      (injection hmap with hval; subst hval; simp)

/-- Claim C7 counterexample: with a fresh (Closed, zero-failure) breaker,
a single failing classification call makes classifyLegalSpecialty rethrow
the error to the orchestrator (the source's catch block is
`catch (e) { throw e; }`), so classification does NOT always absorb
failures into the fallback. -/
theorem classification_raises_counterexample :
    (classifyLegalSpecialty Breaker.initial 0 false "Derecho Civil" 3).result
      = CallResult.raised := by
  decide

/-- Claim C7 (corrected): whenever classification returns a result, the
label is from the closed enumeration (a success carries the operation's
normalised label, a breaker-forced fallback carries exactly
`{Sin Clasificar, 0}`), and an Open breaker inside the cooldown returns
the fallback without throwing; but a failure while the breaker is Closed
below the threshold propagates the error to the orchestrator (`raised`
only happens in that situation). -/
theorem classification_closed_labels (b : Breaker) (now : Nat) (fnSucceeds : Bool)
    (responseText : String) (usage : Nat) :
    ((classifyLegalSpecialty b now fnSucceeds responseText usage).result = .raised →
        fnSucceeds = false
        ∧ (classifyLegalSpecialty b now fnSucceeds responseText usage).breaker.state
            = .closed)
    ∧ (∀ c, (classifyLegalSpecialty b now fnSucceeds responseText usage).result
          = .success c →
        c.specialty ∈ ["Derecho Penal", "Derecho Civil", "Derecho Laboral",
          "Sin Clasificar"])
    ∧ (∀ c, (classifyLegalSpecialty b now fnSucceeds responseText usage).result
          = .fallback c →
        c = FALLBACK_CLASSIFICATION)
    ∧ (b.state = .opened → now - b.lastFailTime ≤ breakerTimeout →
        classifyLegalSpecialty b now fnSucceeds responseText usage =
          { result := .fallback FALLBACK_CLASSIFICATION, invoked := false,
            breaker := b }) := by
  refine ⟨?_, ?_, ?_, ?_⟩
  · intro h
    exact Breaker.execute_raised_closed h
  · intro c hc
    have := Breaker.execute_success_val hc
    subst this
    exact classifyFn_specialty_mem responseText usage
  · intro c hc
    exact Breaker.execute_fallback_val hc
  · intro h1 h2
    exact Breaker.execute_open_shortCircuit h1 h2

/-- Witness for C7 at concrete inputs: an Open breaker forces the
fallback; a fresh breaker with the answer text plus trailing punctuation
yields the mapped label. -/
theorem classification_closed_labels_witness :
    (classifyLegalSpecialty (⟨5, 0, .opened⟩ : Breaker) 1 true "Derecho Penal." 7) =
      { result := .fallback FALLBACK_CLASSIFICATION, invoked := false,
        breaker := ⟨5, 0, .opened⟩ }
    ∧ ("Derecho Penal" : String) ∈ ["Derecho Penal", "Derecho Civil",
        "Derecho Laboral", "Sin Clasificar"] := by
  have h := classification_closed_labels ⟨5, 0, .opened⟩ 1 true "Derecho Penal." 7
  have h2 := classification_closed_labels Breaker.initial 1 true "Derecho Penal." 7
  refine ⟨h.2.2.2 rfl (by decide), ?_⟩
  exact h2.2.1 ⟨"Derecho Penal", 7⟩ (by decide)

/-- Claim C10 (confirmed): when the authenticated user id cannot be
resolved at the start of the pipeline, runAgentRouter returns
immediately with an empty effect trace — no rate-limit check, no message
of any kind, no audit record — and no exception. -/
theorem router_unresolved_user (env : RouterEnv) (message_text whatsapp_id : String)
    (h : env.userId = none) :
    runAgentRouter env message_text whatsapp_id = { effects := [], raised := false } := by
  unfold runAgentRouter
  rw [h]

/-- Witness for C10 on a fully concrete environment. -/
theorem router_unresolved_user_witness :
    runAgentRouter
      { userId := none, rateReadFails := false, rateRow := none, cache := [],
        breaker := Breaker.initial, now := 0, classifyOk := true,
        classifyText := "derecho civil", classifyUsage := 5, embedOk := true,
        embedVec := [1], hitUpdateOk := true, persistOk := true,
        rpcError := false, rpcData := [⟨7, "fragmento"⟩],
        streamChunks := ["respuesta"], streamOk := true, streamUsage := 9 }
      "hola mundo" "wid" = { effects := [], raised := false } :=
  router_unresolved_user _ "hola mundo" "wid" rfl

/-- Claim C2 counterexample: five failing embedding calls (cache misses
whose Gemini call fails) drive the single shared geminiBreaker to Open,
after which a classification call within the cooldown is short-circuited
to the classification fallback without invoking its operation — whereas
the same classification call on the initial breaker state succeeds.  The
breaker state consulted by classification is therefore changed by
embedding failures: the capabilities are NOT wrapped by independent
breaker instances. -/
theorem sharedBreaker_crossCapability_counterexample :
    (let o1 := generateQueryEmbedding [] Breaker.initial 0 "q" false [] true true
     let o2 := generateQueryEmbedding o1.cache o1.breaker 0 "q" false [] true true
     let o3 := generateQueryEmbedding o2.cache o2.breaker 0 "q" false [] true true
     let o4 := generateQueryEmbedding o3.cache o3.breaker 0 "q" false [] true true
     let o5 := generateQueryEmbedding o4.cache o4.breaker 0 "q" false [] true true
     o5.breaker = ⟨5, 0, .opened⟩
     ∧ classifyLegalSpecialty o5.breaker 1 true "Derecho Penal." 7 =
        { result := .fallback FALLBACK_CLASSIFICATION, invoked := false,
          breaker := ⟨5, 0, .opened⟩ })
    ∧ (classifyLegalSpecialty Breaker.initial 1 true "Derecho Penal." 7).result =
        .success ⟨"Derecho Penal", 7⟩ := by
  exact ⟨⟨by decide, by decide⟩, by decide⟩

/-- Claim C2 (corrected): the module has a single breaker instance
(geminiBreaker) shared by the embedding, classification and generation
call sites, so once that shared breaker is Open within its cooldown —
however its failures were accrued — calls of all three capabilities are
short-circuited to their respective fallbacks without invoking their
operations. -/
theorem sharedBreaker_shortCircuits_all (b : Breaker) (now : Nat) (cache : Cache)
    (q responseText : String) (usage streamUsage : Nat)
    (s1 s2 s3 hitUpdateOk persistOk : Bool) (fnVec : List ℚ) (chunks : List String)
    (hb : b.state = .opened) (hc : now - b.lastFailTime ≤ breakerTimeout)
    (hmiss : lookupCache cache (createMD5Hash q) = none) :
    classifyLegalSpecialty b now s1 responseText usage =
      { result := .fallback FALLBACK_CLASSIFICATION, invoked := false, breaker := b }
    ∧ (generateQueryEmbedding cache b now q s2 fnVec hitUpdateOk persistOk).result =
        .ok FALLBACK_EMBEDDING
    ∧ (generateQueryEmbedding cache b now q s2 fnVec hitUpdateOk persistOk).invoked =
        false
    ∧ (generateAugmentedResponse b now chunks s3 streamUsage).forcedFallback = true
    ∧ (generateAugmentedResponse b now chunks s3 streamUsage).messages =
        [FALLBACK_AUGMENTATION_TEXT] := by
  have hstep := @Breaker.execute_open_shortCircuit (List ℚ) b now s2 fnVec
    FALLBACK_EMBEDDING hb hc
  have hFB : isFallbackEmbedding FALLBACK_EMBEDDING = true := by
    have hall : ∀ n : Nat,
        ((List.replicate n (0 : ℚ)).zip (List.replicate n (0 : ℚ))).all
          (fun p => decide (p.1 = p.2)) = true := by
      intro n
      induction n with
      | zero => rfl
      | succ k ih => simp [List.replicate_succ, ih]
    simp only [isFallbackEmbedding, FALLBACK_EMBEDDING, hall, Bool.and_true,
      decide_eq_true_eq]
  have hstep2 := @Breaker.execute_open_shortCircuit AugResult b now s3
    ⟨String.join chunks, streamUsage⟩ FALLBACK_AUGMENTATION hb hc
  refine ⟨Breaker.execute_open_shortCircuit hb hc, ?_, ?_, ?_, ?_⟩
  · unfold generateQueryEmbedding
    dsimp only
    rw [hmiss, hstep]
  · unfold generateQueryEmbedding
    dsimp only
    rw [hmiss, hstep]
  · unfold generateAugmentedResponse
    dsimp only
    rw [hstep2]
    simp [FALLBACK_AUGMENTATION]
  · unfold generateAugmentedResponse
    dsimp only
    rw [hstep2]
    simp [FALLBACK_AUGMENTATION]

/-- Witness for C2's amended claim at a concrete Open breaker state. -/
theorem sharedBreaker_shortCircuits_all_witness :
    classifyLegalSpecialty (⟨5, 3, .opened⟩ : Breaker) 4 true "derecho penal" 2 =
      { result := .fallback FALLBACK_CLASSIFICATION, invoked := false,
        breaker := ⟨5, 3, .opened⟩ }
    ∧ (generateQueryEmbedding [] (⟨5, 3, .opened⟩ : Breaker) 4 "q" true [1] true
        true).result = .ok FALLBACK_EMBEDDING
    ∧ (generateQueryEmbedding [] (⟨5, 3, .opened⟩ : Breaker) 4 "q" true [1] true
        true).invoked = false
    ∧ (generateAugmentedResponse (⟨5, 3, .opened⟩ : Breaker) 4 ["hola"] true
        6).forcedFallback = true
    ∧ (generateAugmentedResponse (⟨5, 3, .opened⟩ : Breaker) 4 ["hola"] true
        6).messages = [FALLBACK_AUGMENTATION_TEXT] :=
  sharedBreaker_shortCircuits_all ⟨5, 3, .opened⟩ 4 [] "q" "derecho penal" 2 6
    true true true true true [1] ["hola"] rfl (by decide) rfl

set_option maxRecDepth 100000 in
/-- Claim C5 counterexample: with 4 prior failures on the breaker, a
generation stream that yields exactly the fallback text (152 characters,
at least the 150-character chunk bound, so the buffer is flushed and
delivered) and then throws makes the breaker force the static fallback —
and the fallback text is delivered twice: once by the streaming path's
flush and once by the post-breaker fallback check at lines 294-296. -/
theorem augmentation_duplicate_fallback_counterexample :
    (generateAugmentedResponse ⟨4, 0, .closed⟩ 0 [FALLBACK_AUGMENTATION_TEXT] false
        0).forcedFallback = true
    ∧ (generateAugmentedResponse ⟨4, 0, .closed⟩ 0 [FALLBACK_AUGMENTATION_TEXT] false
        0).messages = [FALLBACK_AUGMENTATION_TEXT, FALLBACK_AUGMENTATION_TEXT]
    ∧ ((generateAugmentedResponse ⟨4, 0, .closed⟩ 0 [FALLBACK_AUGMENTATION_TEXT] false
        0).messages.count FALLBACK_AUGMENTATION_TEXT = 2) := by
  exact ⟨by decide, by decide, by decide⟩

/-- Claim C5 (corrected): when the Circuit Breaker forces the static
fallback without invoking the generation operation (Open short-circuit
within the cooldown), the fallback text is the only message of the
request, delivered exactly once; and in every request whose streaming
flushes never produce the fallback text verbatim, at most one message
equal to the fallback text is sent.  (The counterexample shows the
remaining case — a stream that flushes the fallback text itself before
the breaker forces the fallback — is delivered twice.) -/
theorem augmentation_fallback_delivery (b : Breaker) (now : Nat)
    (chunks : List String) (streamOk : Bool) (streamUsage : Nat) :
    (b.state = .opened → now - b.lastFailTime ≤ breakerTimeout →
      (generateAugmentedResponse b now chunks streamOk streamUsage).messages =
        [FALLBACK_AUGMENTATION_TEXT]
      ∧ (generateAugmentedResponse b now chunks streamOk streamUsage).forcedFallback
          = true)
    ∧ (FALLBACK_AUGMENTATION_TEXT ∉ fnMessages chunks streamOk →
      (generateAugmentedResponse b now chunks streamOk streamUsage).messages.count
        FALLBACK_AUGMENTATION_TEXT ≤ 1) := by
  constructor
  · intro hb hc
    have hstep2 := @Breaker.execute_open_shortCircuit AugResult b now streamOk
      ⟨String.join chunks, streamUsage⟩ FALLBACK_AUGMENTATION hb hc
    unfold generateAugmentedResponse
    dsimp only
    rw [hstep2]
    simp [FALLBACK_AUGMENTATION]
  · intro h
    unfold generateAugmentedResponse
    dsimp only
    rcases hst : b.execute now streamOk ⟨String.join chunks, streamUsage⟩
        FALLBACK_AUGMENTATION with ⟨res, inv, br⟩
    rw [hst]
    have hs : (if inv = true then fnMessages chunks streamOk else []).count
        FALLBACK_AUGMENTATION_TEXT = 0 := by
      cases inv
      · simp
      · simp only [if_pos rfl]
        exact List.count_eq_zero.mpr h
    cases res with
    | raised => simp [List.count_append, hs]
    | success r =>
        by_cases hr : r.responseText = FALLBACK_AUGMENTATION_TEXT <;>
          simp [hr, List.count_append, hs]
    | fallback r =>
        by_cases hr : r.responseText = FALLBACK_AUGMENTATION_TEXT <;>
          simp [hr, List.count_append, hs]

/-- Witness for C5's amended claim: an Open breaker delivers the fallback
exactly once; a Closed breaker with a short ordinary stream sends the
fallback text at most once. -/
theorem augmentation_fallback_delivery_witness :
    (generateAugmentedResponse ⟨5, 0, .opened⟩ 10 ["hola"] true 3).messages =
      [FALLBACK_AUGMENTATION_TEXT]
    ∧ (generateAugmentedResponse ⟨5, 0, .opened⟩ 10 ["hola"] true 3).forcedFallback
        = true
    ∧ (generateAugmentedResponse ⟨0, 0, .closed⟩ 0 ["hola"] true 3).messages.count
        FALLBACK_AUGMENTATION_TEXT ≤ 1 := by
  have h1 := augmentation_fallback_delivery ⟨5, 0, .opened⟩ 10 ["hola"] true 3
  have h2 := augmentation_fallback_delivery ⟨0, 0, .closed⟩ 0 ["hola"] true 3
  exact ⟨(h1.1 rfl (by decide)).1, (h1.1 rfl (by decide)).2, h2.2 (by decide)⟩

set_option maxRecDepth 100000 in
/-- Claim C6 counterexample: when the best-effort cache persist does not
reach the table (it is fire-and-forget and its failure is only logged),
two getOrCompute calls with the same query both miss the cache and both
invoke the compute function — so the compute function is NOT invoked at
most once. -/
theorem getOrCompute_invokes_twice_counterexample :
    (generateQueryEmbedding [] Breaker.initial 0 "Hola" true [1] true false).invoked
      = true
    ∧ (generateQueryEmbedding [] Breaker.initial 0 "Hola" true [1] true false).result
        = .ok [1]
    ∧ (generateQueryEmbedding
        (generateQueryEmbedding [] Breaker.initial 0 "Hola" true [1] true false).cache
        (generateQueryEmbedding [] Breaker.initial 0 "Hola" true [1] true false).breaker
        0 "Hola" true [1] true false).invoked = true := by
  exact ⟨rfl, rfl, rfl⟩

/-- Claim C6 (corrected): if the first call misses the cache, the breaker
is Closed, the computed vector is not the fallback sentinel and the
best-effort persist reaches the cache before the second call, then the
second call with the same query hits the cache, does not invoke the
compute function (which therefore ran exactly once across both calls),
and returns the identical vector the first call returned. -/
theorem getOrCompute_roundTrip (cache : Cache) (b : Breaker) (now now2 : Nat)
    (q : String) (v fnVec2 : List ℚ) (hitOk s2 hitOk2 persistOk2 : Bool)
    (hmiss : lookupCache cache (createMD5Hash q) = none)
    (hb : b.state = .closed)
    (hnf : isFallbackEmbedding v = false) :
    (generateQueryEmbedding cache b now q true v hitOk true).result = .ok v
    ∧ (generateQueryEmbedding cache b now q true v hitOk true).invoked = true
    ∧ (generateQueryEmbedding
        (generateQueryEmbedding cache b now q true v hitOk true).cache
        (generateQueryEmbedding cache b now q true v hitOk true).breaker
        now2 q s2 fnVec2 hitOk2 persistOk2).result = .ok v
    ∧ (generateQueryEmbedding
        (generateQueryEmbedding cache b now q true v hitOk true).cache
        (generateQueryEmbedding cache b now q true v hitOk true).breaker
        now2 q s2 fnVec2 hitOk2 persistOk2).invoked = false := by
  have hexec : b.execute now true v FALLBACK_EMBEDDING =
      { result := .success v, invoked := true, breaker := b.onSuccess } := by
    simp [Breaker.execute, hb]
  have hout : generateQueryEmbedding cache b now q true v hitOk true =
      { result := .ok v, cache := insertCache cache (createMD5Hash q) v,
        breaker := b.onSuccess, invoked := true } := by
    unfold generateQueryEmbedding
    dsimp only
    rw [hmiss, hexec]
    simp [hnf]
  have hhit : lookupCache (insertCache cache (createMD5Hash q) v)
      (createMD5Hash q) = some ⟨v, 0⟩ := by
    simp [lookupCache, insertCache]
  rw [hout]
  refine ⟨rfl, rfl, ?_, ?_⟩
  · unfold generateQueryEmbedding
    dsimp only
    rw [hhit]
  · unfold generateQueryEmbedding
    dsimp only
    rw [hhit]

set_option maxRecDepth 100000 in
/-- Witness for C6's amended claim on concrete inputs (note the second
call returns the first call's vector even though its own compute
behaviour is different). -/
theorem getOrCompute_roundTrip_witness :
    (generateQueryEmbedding [] Breaker.initial 0 "Hola" true [1] true true).result
      = .ok [1]
    ∧ (generateQueryEmbedding [] Breaker.initial 0 "Hola" true [1] true true).invoked
      = true
    ∧ (generateQueryEmbedding
        (generateQueryEmbedding [] Breaker.initial 0 "Hola" true [1] true true).cache
        (generateQueryEmbedding [] Breaker.initial 0 "Hola" true [1] true true).breaker
        99 "Hola" false [5] true true).result = .ok [1]
    ∧ (generateQueryEmbedding
        (generateQueryEmbedding [] Breaker.initial 0 "Hola" true [1] true true).cache
        (generateQueryEmbedding [] Breaker.initial 0 "Hola" true [1] true true).breaker
        99 "Hola" false [5] true true).invoked = false :=
  getOrCompute_roundTrip [] Breaker.initial 0 99 "Hola" [1] [5] true false true true
    rfl rfl (by decide)

/-- Helper: a run of letters has no leading whitespace to drop. -/
theorem replicate_a_dropWhile (n : Nat) :
    (List.replicate n 'a').dropWhile Char.isWhitespace = List.replicate n 'a' := by
  cases n with
  | zero => rfl
  | succ k =>
      rw [List.replicate_succ, List.dropWhile_cons]
      simp

/-- Helper: trimming a pure letter run is the identity. -/
theorem jsTrim_replicate_a (n : Nat) :
    jsTrim (String.mk (List.replicate n 'a')) = String.mk (List.replicate n 'a') := by
  unfold jsTrim
  simp [replicate_a_dropWhile, List.reverse_replicate]

set_option maxRecDepth 10000 in
/-- Claim C8 (code bug): a 2001-character message does fail validation
with the over-length error and no downstream stage executes, but the
user receives the WRONG notice.  The thrown message is
"Validation Error: Message exceeds 2000 characters.", which does not
contain the substring "too long" that the router's notice dispatch at
line 365 tests for, so the router sends the too-short/invalid notice
instead of the over-length notice — the dedicated over-length notice of
line 366 is unreachable.  The final conjunct runs the full router on the
over-length message and shows the trace is exactly the rate-limit read
followed by the too-short notice. -/
theorem validation_tooLong_notice_bug :
    validateInput (String.mk (List.replicate 2001 'a')) =
      .error "Validation Error: Message exceeds 2000 characters."
    ∧ strIncludes "Validation Error: Message exceeds 2000 characters." "too long"
        = false
    ∧ validationNotice "Validation Error: Message exceeds 2000 characters." =
        TOO_SHORT_NOTICE
    ∧ TOO_SHORT_NOTICE ≠ TOO_LONG_NOTICE
    ∧ validateInput "hey" = .error "Validation Error: Message too short."
    ∧ validationNotice "Validation Error: Message too short." = TOO_SHORT_NOTICE
    ∧ runAgentRouter
        { userId := some "u1", rateReadFails := false, rateRow := none, cache := [],
          breaker := Breaker.initial, now := 0, classifyOk := true,
          classifyText := "derecho civil", classifyUsage := 5, embedOk := true,
          embedVec := [1], hitUpdateOk := true, persistOk := true,
          rpcError := false, rpcData := [⟨7, "fragmento"⟩],
          streamChunks := ["respuesta"], streamOk := true, streamUsage := 9 }
        (String.mk (List.replicate 2001 'a')) "wid" =
      { effects := [.rateLimitRead, .sendMessage "wid" TOO_SHORT_NOTICE],
        raised := false } := by
  have hval : validateInput (String.mk (List.replicate 2001 'a')) =
      .error "Validation Error: Message exceeds 2000 characters." := by
    unfold validateInput
    dsimp only
    rw [jsTrim_replicate_a]
    have hlen : (String.mk (List.replicate 2001 'a')).length = 2001 := by
      simp [String.length]
    rw [hlen]
    norm_num [MIN_INPUT_LENGTH, MAX_INPUT_LENGTH]
  refine ⟨hval, by decide, by decide, by decide, rfl, by decide, ?_⟩
  unfold runAgentRouter
  dsimp only
  rw [show checkRateLimit false none 0 = (true, some ⟨1, 0⟩) from rfl, hval]
  dsimp only
  rw [show validationNotice "Validation Error: Message exceeds 2000 characters." =
      TOO_SHORT_NOTICE from by decide]
  simp

/-- Claim C9 (code bug): the cache-hit row is fetched with
select('embedding') only, so `cached.hit_count` is undefined and the
best-effort update always writes `(undefined || 0) + 1 = 1`.  On an
entry whose stored hit count is 2, the hit write stores 1 < 2, violating
the claimed monotonicity; the evident intent (incrementing the stored
count) is broken by the too-narrow select. -/
theorem hitCount_overwrite_bug :
    hitUpdateValue none = 1
    ∧ (generateQueryEmbedding [("q", ⟨[1], 2⟩)] Breaker.initial 0 "q" true [1] true
        true).cache = [("q", ⟨[1], 1⟩)]
    ∧ (generateQueryEmbedding [("q", ⟨[1], 2⟩)] Breaker.initial 0 "q" true [1] true
        true).result = .ok [1]
    ∧ (1 : Nat) < 2 := by
  exact ⟨rfl, by decide, rfl, by decide⟩

end AgentManager
